import Mathlib

/-!
Verification of the hospital management console (Streamlit + sqlite variants:
`Appp.py`, `app.py`, `App.py`, `hospital.py`, `management.py`).

The relational store `hospital.db` is modelled as a record of lists of rows,
one list per table, together with the next AUTOINCREMENT surrogate id per
table.  Each form handler in the source is embedded as a pure function from
the submitted field values and the current store to the new store plus the
user-visible message.  sqlite's single-statement atomicity is reflected by
the fact that a failing statement returns the store unchanged.
-/

namespace HMS

/-- Row of the `Patients` table: `id, name, cnic, phone` (`Appp.py` `init_db`;
the same four columns are created by every variant's `init_db`). -/
structure PatientRow where
  id : Nat
  name : String
  cnic : String
  phone : String
deriving Repr, DecidableEq

/-- Row of the `Doctors` table: `id, name, cnic, department`. -/
structure DoctorRow where
  id : Nat
  name : String
  cnic : String
  department : String
deriving Repr, DecidableEq

/-- Row of the `Appointments` table. -/
structure ApptRow where
  id : Nat
  patient : String
  patient_cnic : String
  doctor : String
  doctor_cnic : String
  date : String
  time : String
  status : String
deriving Repr, DecidableEq

/-- Row of the `MedicalRecords` table. -/
structure RecordRow where
  id : Nat
  patient : String
  patient_cnic : String
  doctor : String
  diagnosis : String
  treatment : String
  prescription : String
  date : String
deriving Repr, DecidableEq

/-- Row of the `Billings` table (`Appp.py` variant, no `bill_date`).  The
`REAL` amount is carried opaquely as an integer number of currency units;
no claim computes with it. -/
structure BillRow where
  id : Nat
  patient : String
  patient_cnic : String
  amount : Int
  details : String
  status : String
deriving Repr, DecidableEq

/-- Row of the `Billings` table of `app.py`, which adds
`bill_date TEXT DEFAULT (date('now'))`. -/
structure AppBillRow where
  id : Nat
  patient : String
  patient_cnic : String
  amount : Int
  details : String
  status : String
  bill_date : String
deriving Repr, DecidableEq

/-- The `hospital.db` store for the variants sharing the five-table schema
(`Appp.py`, `hospital.py`, `management.py`).  Each table keeps insertion
order; `next*Id` is the table's AUTOINCREMENT counter. -/
structure DB where
  patients : List PatientRow
  doctors : List DoctorRow
  appointments : List ApptRow
  records : List RecordRow
  bills : List BillRow
  nextPatientId : Nat
  nextApptId : Nat
  nextRecordId : Nat
  nextBillId : Nat
deriving Repr, DecidableEq

/-- The store as used by `app.py` (only `Patients` and the `bill_date`
flavour of `Billings` are touched by its handlers). -/
structure AppDB where
  patients : List PatientRow
  bills : List AppBillRow
  nextBillId : Nat
deriving Repr, DecidableEq

/-- Message surfaced to the user by a form handler (`st.success` / `st.error`).
`uncaughtError` marks a Python exception that no handler catches. -/
inductive UiMsg where
  | success (m : String)
  | error (m : String)
  | uncaughtError
deriving Repr, DecidableEq

/-- `Appp.py` `add_patient_form` (lines 170-179): requires all three fields
non-empty (Python truthiness), inserts, and catches `sqlite3.IntegrityError`
from the `cnic TEXT UNIQUE` constraint, showing "CNIC already exists!". -/
def add_patient_form (name cnic phone : String) (db : DB) : DB × UiMsg :=
  if name ≠ "" ∧ cnic ≠ "" ∧ phone ≠ "" then
    if db.patients.any (fun r => r.cnic == cnic) then
      (db, UiMsg.error "CNIC already exists!")
    else
      ({ db with
          patients := db.patients ++
            [{ id := db.nextPatientId, name := name, cnic := cnic, phone := phone }],
          nextPatientId := db.nextPatientId + 1 },
       UiMsg.success "Patient added successfully!")
  else (db, UiMsg.error "All fields are required!")

/-- `Appp.py` `update_patient_form` (lines 197-200): unconditional
`UPDATE Patients SET name=?, cnic=?, phone=? WHERE id=?`.  If the new cnic
collides with a different existing row, sqlite raises `IntegrityError`
(`cnic TEXT UNIQUE`) which the form does not catch. -/
def update_patient_form (pid : Nat) (name cnic phone : String) (db : DB) : DB × UiMsg :=
  if db.patients.any (fun r => r.id == pid) &&
     db.patients.any (fun r => r.id != pid && r.cnic == cnic) then
    (db, UiMsg.uncaughtError)
  else
    ({ db with
        patients := db.patients.map (fun r =>
          if r.id == pid then { r with name := name, cnic := cnic, phone := phone } else r) },
     UiMsg.success "Patient updated!")

/-- `Appp.py` `add_appointment_form` (lines 318-330): both cnics required,
both must resolve (`SELECT name FROM Patients/Doctors WHERE cnic=?`,
`pat.iloc[0]` is the first matching row), and on success the resolved names
are copied into the denormalized `patient`/`doctor` columns. -/
def add_appointment_form (patient_cnic doctor_cnic date time status : String) (db : DB) :
    DB × UiMsg :=
  if patient_cnic ≠ "" ∧ doctor_cnic ≠ "" then
    match db.patients.find? (fun r => r.cnic == patient_cnic),
          db.doctors.find? (fun r => r.cnic == doctor_cnic) with
    | some p, some d =>
      ({ db with
          appointments := db.appointments ++
            [{ id := db.nextApptId, patient := p.name, patient_cnic := patient_cnic,
               doctor := d.name, doctor_cnic := doctor_cnic,
               date := date, time := time, status := status }],
          nextApptId := db.nextApptId + 1 },
       UiMsg.success "Appointment scheduled!")
    | _, _ => (db, UiMsg.error "Invalid CNIC!")
  else (db, UiMsg.error "Both CNICs required!")

/-- `Appp.py` `add_record_form` (lines 402-413): cnic, doctor name and
diagnosis required; the patient cnic must resolve; the resolved patient name
is snapshotted into the record. -/
def add_record_form (patient_cnic doctor diagnosis treatment prescription date : String)
    (db : DB) : DB × UiMsg :=
  if patient_cnic ≠ "" ∧ doctor ≠ "" ∧ diagnosis ≠ "" then
    match db.patients.find? (fun r => r.cnic == patient_cnic) with
    | some p =>
      ({ db with
          records := db.records ++
            [{ id := db.nextRecordId, patient := p.name, patient_cnic := patient_cnic,
               doctor := doctor, diagnosis := diagnosis, treatment := treatment,
               prescription := prescription, date := date }],
          nextRecordId := db.nextRecordId + 1 },
       UiMsg.success "Record added!")
    | none => (db, UiMsg.error "Patient not found!")
  else (db, UiMsg.error "Required fields missing!")

/-- `Appp.py` `update_record_form` (lines 436-442): re-resolves the (possibly
edited) patient cnic; when it resolves, the row is overwritten including the
denormalized patient name refreshed to the patient's current name; when it
does not resolve there is no `else` branch in the source, so nothing happens
and no message is shown (`none`). -/
def update_record_form (rid : Nat)
    (patient_cnic doctor diagnosis treatment prescription date : String) (db : DB) :
    DB × Option UiMsg :=
  match db.patients.find? (fun r => r.cnic == patient_cnic) with
  | some p =>
    ({ db with
        records := db.records.map (fun r =>
          if r.id == rid then
            { id := r.id, patient := p.name, patient_cnic := patient_cnic,
              doctor := doctor, diagnosis := diagnosis, treatment := treatment,
              prescription := prescription, date := date }
          else r) },
     some (UiMsg.success "Updated!"))
  | none => (db, none)

/-- `Appp.py` `add_bill_form` (lines 482-493): cnic required, must resolve to
a patient; on failure "Patient not found!" and no insert. -/
def add_bill_form (patient_cnic : String) (amount : Int) (details status : String)
    (db : DB) : DB × UiMsg :=
  if patient_cnic ≠ "" then
    match db.patients.find? (fun r => r.cnic == patient_cnic) with
    | some p =>
      ({ db with
          bills := db.bills ++
            [{ id := db.nextBillId, patient := p.name, patient_cnic := patient_cnic,
               amount := amount, details := details, status := status }],
          nextBillId := db.nextBillId + 1 },
       UiMsg.success "Bill created!")
    | none => (db, UiMsg.error "Patient not found!")
  else (db, UiMsg.error "Patient CNIC required!")

/-- `app.py` `add_bill_form` (lines 182-195): same reference check with the
messages of that variant; `bill_date` takes sqlite's `date('now')` default,
passed here as `today`. -/
def app_add_bill_form (today patient_cnic : String) (amount : Int) (details status : String)
    (db : AppDB) : AppDB × UiMsg :=
  if patient_cnic = "" then (db, UiMsg.error "Patient CNIC is required!")
  else
    match db.patients.find? (fun r => r.cnic == patient_cnic) with
    | some p =>
      ({ db with
          bills := db.bills ++
            [{ id := db.nextBillId, patient := p.name, patient_cnic := patient_cnic,
               amount := amount, details := details, status := status,
               bill_date := today }],
          nextBillId := db.nextBillId + 1 },
       UiMsg.success "Bill created successfully!")
    | none => (db, UiMsg.error "Patient not found in records!")

/-- `management.py` delete interaction (lines 183-187): the update/delete
widgets are rendered only when `SELECT * FROM Patients WHERE id=?` returned a
row; pressing Delete runs `DELETE FROM Patients WHERE id=?` and shows
"❌ Patient deleted".  When no row matches the id, nothing is rendered and no
message of any kind is produced (`none`). -/
def del_patient_btn (pid : Nat) (db : DB) : DB × Option UiMsg :=
  if db.patients.any (fun r => r.id == pid) then
    ({ db with patients := db.patients.filter (fun r => r.id != pid) },
     some (UiMsg.success "❌ Patient deleted"))
  else (db, none)

/-- Column list of the `Patients` table created by `hospital.py` `init_db`
(lines 110-115). -/
def hospitalPatientsColumns : List String := ["id", "name", "cnic", "phone"]

/-- Column list named by the INSERT in `hospital.py` `add_patient_form`
(line 246). -/
def hospitalInsertColumns : List String :=
  ["name", "cnic", "phone", "age", "gender", "address"]

/-- sqlite errors relevant here: `IntegrityError` (UNIQUE violation) and
`OperationalError` (e.g. "table Patients has no column named age"). -/
inductive SqliteError where
  | integrityError
  | operationalError
deriving Repr, DecidableEq

/-- The INSERT statement issued by `hospital.py` `add_patient_form`: sqlite
first rejects the statement if it names a column the table does not have
(`OperationalError`), otherwise enforces the UNIQUE cnic constraint. -/
def hospitalInsertPatient (name cnic phone : String) (age : Nat) (gender address : String)
    (db : DB) : Except SqliteError DB :=
  if hospitalInsertColumns.all (fun c => hospitalPatientsColumns.contains c) then
    if db.patients.any (fun r => r.cnic == cnic) then Except.error SqliteError.integrityError
    else
      Except.ok { db with
        patients := db.patients ++
          [{ id := db.nextPatientId, name := name, cnic := cnic, phone := phone }],
        nextPatientId := db.nextPatientId + 1 }
  else Except.error SqliteError.operationalError

/-- `hospital.py` `add_patient_form` (lines 243-253): the INSERT is wrapped in
a bare `except:` whose handler shows "CNIC already exists!", so every failure
of the statement, whatever its cause, surfaces as that message. -/
def hospital_add_patient_form (name cnic phone : String) (age : Nat)
    (gender address : String) (db : DB) : DB × UiMsg :=
  if name ≠ "" ∧ cnic ≠ "" ∧ phone ≠ "" then
    match hospitalInsertPatient name cnic phone age gender address db with
    | Except.ok db2 => (db2, UiMsg.success "Patient added successfully!")
    | Except.error _ => (db, UiMsg.error "CNIC already exists!")
  else (db, UiMsg.error "Required fields missing!")

/-! ### CNIC validation (`management.py` line 80-81)

`valid_cnic` is `re.match(r"^\d{5}-\d{7}-\d$", cnic)`, used for its
truthiness.  The regex is embedded as a sequential matcher over the string's
characters.  `\d` is modelled as an ASCII digit (all inputs at issue are
ASCII); Python's `$` matches at the end of the string and also just before a
single newline that ends the string, which the matcher reproduces. -/

/-- Consume exactly `n` digit characters, returning the rest. -/
def matchDigits : Nat → List Char → Option (List Char)
  | 0, cs => some cs
  | _ + 1, [] => none
  | n + 1, c :: cs => if c.isDigit then matchDigits n cs else none

/-- Consume one expected literal character. -/
def matchChar (ch : Char) : List Char → Option (List Char)
  | [] => none
  | c :: cs => if c = ch then some cs else none

/-- Python's `$`: succeeds at the end of input and also just before a single
trailing newline. -/
def matchDollar (cs : List Char) : Bool :=
  cs.isEmpty || cs == ['\n']

/-- The anchored regex `^\d{5}-\d{7}-\d$` run on a character list: the five
atoms matched in sequence, then the `$` anchor on whatever remains. -/
def cnicRegexMatch (cs : List Char) : Bool :=
  match ((((matchDigits 5 cs).bind (matchChar '-')).bind (matchDigits 7)).bind
      (matchChar '-')).bind (matchDigits 1) with
  | none => false
  | some rest => matchDollar rest

/-- `management.py` `valid_cnic`, as a boolean (the source's truthiness of the
`re.match` result). -/
def valid_cnic (cnic : String) : Bool := cnicRegexMatch cnic.data

/-- The 5-7-1 shape the spec describes: five digits, a hyphen, seven digits,
a hyphen, one digit, and nothing else.  Written from the spec's words, to be
compared with the source-derived matcher. -/
def specCnic (cs : List Char) : Prop :=
  ∃ a b c, cs = a ++ '-' :: (b ++ ['-', c]) ∧ a.length = 5 ∧ b.length = 7 ∧
    (∀ x ∈ a, x.isDigit = true) ∧ (∀ x ∈ b, x.isDigit = true) ∧ c.isDigit = true

/-! ### Dashboard monthly aggregation (`management.py` lines 127-135)

`pd.to_datetime(appt["date"])` is called without `errors=`, so pandas'
default `errors="raise"` applies: one unparseable date raises and aborts the
dashboard.  `to_datetime` is modelled on the ISO `YYYY-MM-DD` shape the app
itself writes (`str(st.date_input(...))`); any other shape is unparseable.
`groupby(...dt.to_period("M")).size()` yields one count per distinct
(year, month), with keys sorted ascending. -/

/-- Numeric value of a digit string (callers ensure all characters are
digits). -/
def digitsToNat (cs : List Char) : Nat :=
  cs.foldl (fun n c => n * 10 + (c.toNat - '0'.toNat)) 0

/-- Parse an ISO `YYYY-MM-DD` date to its (year, month); `none` when the
string does not have that shape (pandas would raise on it). -/
def parseYM (s : String) : Option (Nat × Nat) :=
  match s.data.splitOn '-' with
  | [y, m, d] =>
    if y.length = 4 ∧ m.length = 2 ∧ d.length = 2 ∧
       y.all Char.isDigit ∧ m.all Char.isDigit ∧ d.all Char.isDigit then
      let mn := digitsToNat m
      let dn := digitsToNat d
      if 1 ≤ mn ∧ mn ≤ 12 ∧ 1 ≤ dn ∧ dn ≤ 31 then some (digitsToNat y, mn) else none
    else none
  | _ => none

/-- Strict lexicographic order on (year, month) keys. -/
def ymLt (a b : Nat × Nat) : Prop :=
  a.1 < b.1 ∨ (a.1 = b.1 ∧ a.2 < b.2)

instance (a b : Nat × Nat) : Decidable (ymLt a b) := by
  unfold ymLt; exact inferInstance

/-- Insert a key into an ascending duplicate-free key list, keeping it
ascending and duplicate-free. -/
def insertKey (x : Nat × Nat) : List (Nat × Nat) → List (Nat × Nat)
  | [] => [x]
  | y :: ys => if x = y then y :: ys else if ymLt x y then x :: y :: ys else y :: insertKey x ys

/-- The distinct keys of a list, ascending (pandas groupby sorts its keys). -/
def sortedKeys (l : List (Nat × Nat)) : List (Nat × Nat) :=
  l.foldr insertKey []

/-- `groupby(month).size()`: one (key, count) pair per distinct month. -/
def groupMonths (l : List (Nat × Nat)) : List ((Nat × Nat) × Nat) :=
  (sortedKeys l).map (fun k => (k, l.count k))

/-- The dashboard's monthly appointment trend series: converts every date,
raising (`Except.error`) as soon as any date fails to parse — pandas
`to_datetime` default behaviour — then groups by month. -/
def monthlyTrend (dates : List String) : Except Unit (List ((Nat × Nat) × Nat)) :=
  if dates.all (fun s => (parseYM s).isSome) then
    Except.ok (groupMonths (dates.filterMap parseYM))
  else Except.error ()

/-! ### PDF report generation (`management.py` `export_pdf` lines 90-105,
`App.py` `generate_patient_report_pdf` lines 97-155)

A built document is modelled as its list of flowable elements. -/

/-- A reportlab flowable as far as the claims are concerned. -/
inductive PdfElem where
  | para (text : String)
  | spacer
  | table (rows : List (List String))
deriving Repr, DecidableEq

/-- `management.py` `export_pdf`: a title paragraph followed by one table
whose first row is the column headers and whose remaining rows are the data
rows.  There is no empty-input branch: zero data rows yield a header-only
table. -/
def export_pdf (title : String) (headers : List String) (rows : List (List String)) :
    List PdfElem :=
  [PdfElem.para title, PdfElem.table (headers :: rows)]

/-- Truncation used by `App.py` for long cell text: first 60 characters plus
an ellipsis. -/
def truncCell (s : String) : String :=
  if s.length > 60 then s.take 60 ++ "..." else s

/-- One data row of the `App.py` medical-history table. -/
def patientReportRow (r : RecordRow) : List String :=
  [r.date, r.doctor, truncCell r.diagnosis, truncCell r.treatment, truncCell r.prescription]

/-- `App.py` `generate_patient_report_pdf`: title, patient info paragraphs,
then either the history table (header row plus one row per record) or, when
the record set is empty, the paragraph
"No medical records found for this patient.", then the footer.  `now` stands
for the `datetime.now()` timestamp. -/
def generate_patient_report_pdf (patient_name patient_cnic now : String)
    (records : List RecordRow) : List PdfElem :=
  [PdfElem.para "Patient Medical Report", PdfElem.spacer,
   PdfElem.para ("<b>Patient Name:</b> " ++ patient_name),
   PdfElem.para ("<b>CNIC:</b> " ++ patient_cnic),
   PdfElem.para ("<b>Report Generated:</b> " ++ now), PdfElem.spacer] ++
  (if records.isEmpty then
     [PdfElem.para "No medical records found for this patient."]
   else
     [PdfElem.table (["Date", "Doctor", "Diagnosis", "Treatment", "Prescription"] ::
        records.map patientReportRow)]) ++
  [PdfElem.spacer,
   PdfElem.para "This report is confidential and for medical use only.",
   PdfElem.para "Generated by Hospital Management System"]

/-! ### Concrete stores used by witnesses and counterexamples -/

/-- A small store: one patient, one doctor, empty dependent tables. -/
def demoDb : DB :=
  { patients := [{ id := 1, name := "Alice", cnic := "11111-1111111-1", phone := "0300" }],
    doctors := [{ id := 1, name := "Dr Bob", cnic := "22222-2222222-2",
                  department := "Cardiology" }],
    appointments := [], records := [], bills := [],
    nextPatientId := 2, nextApptId := 1, nextRecordId := 1, nextBillId := 1 }

/-- A store holding a medical record whose denormalized patient name is stale
relative to the Patients table. -/
def demoStaleDb : DB :=
  { patients := [{ id := 1, name := "Alice", cnic := "11111-1111111-1", phone := "0300" }],
    doctors := [],
    appointments := [],
    records := [{ id := 1, patient := "Old Name", patient_cnic := "11111-1111111-1",
                  doctor := "Dr Bob", diagnosis := "Flu", treatment := "Rest",
                  prescription := "Tea", date := "2025-01-01" }],
    bills := [],
    nextPatientId := 2, nextApptId := 1, nextRecordId := 2, nextBillId := 1 }

/-- An `app.py` store with one patient and no bills. -/
def demoAppDb : AppDB :=
  { patients := [{ id := 1, name := "Alice", cnic := "11111-1111111-1", phone := "0300" }],
    bills := [], nextBillId := 1 }

/-! ## Helper lemmas -/

/-- In a list of patients with pairwise distinct cnics, a cnic that occurs at
all occurs exactly once. -/
theorem countP_cnic_eq_one (l : List PatientRow) (c : String)
    (hmem : ∃ r ∈ l, r.cnic = c)
    (huniq : l.Pairwise (fun a b => a.cnic ≠ b.cnic)) :
    l.countP (fun r => r.cnic == c) = 1 := by
  induction l with
  | nil => simp at hmem
  | cons a t ih =>
    rcases List.pairwise_cons.1 huniq with ⟨ha, ht⟩
    rcases hmem with ⟨r, hr, hrc⟩
    rcases List.mem_cons.1 hr with h | h
    · subst h
      have hzero : t.countP (fun r => r.cnic == c) = 0 := by
        refine List.countP_eq_zero.2 (fun x hx => ?_)
        have hne := ha x hx
        simp only [beq_iff_eq]
        intro hxc
        exact hne (by rw [hrc, hxc])
      rw [List.countP_cons, hzero]
      simp [hrc]
    · have hac : ¬ (a.cnic == c) = true := by
        have hne := ha r h
        simp only [beq_iff_eq]
        intro hh
        exact hne (by rw [hh, hrc])
      rw [List.countP_cons, if_neg hac]
      simpa using ih ⟨r, h, hrc⟩ ht

/-- With pairwise distinct cnics, every member carrying the searched cnic is
the row that `find?` returns. -/
theorem mem_cnic_eq_find (l : List PatientRow) (n : String) (p r : PatientRow)
    (hfind : l.find? (fun x => x.cnic == n) = some p)
    (huniq : l.Pairwise (fun a b => a.cnic ≠ b.cnic))
    (hr : r ∈ l) (hrc : r.cnic = n) : r = p := by
  induction l with
  | nil => simp at hr
  | cons a t ih =>
    rcases List.pairwise_cons.1 huniq with ⟨ha, ht⟩
    by_cases hac : a.cnic = n
    · have hfa : (fun x => x.cnic == n) a = true := by simp [hac]
      rw [@List.find?_cons_of_pos _ (fun x => x.cnic == n) a t hfa] at hfind
      have hpa : p = a := (Option.some.inj hfind).symm
      subst hpa
      rcases List.mem_cons.1 hr with h | h
      · exact h
      · exact absurd (by rw [hac, ← hrc] : p.cnic = r.cnic) (fun hh => ha r h hh)
    · have hfa : ¬ (fun x => x.cnic == n) a = true := by simp [hac]
      rw [@List.find?_cons_of_neg _ (fun x => x.cnic == n) a t hfa] at hfind
      rcases List.mem_cons.1 hr with h | h
      · exact absurd (h ▸ hrc) hac
      · exact ih hfind ht h

/-- Deleting by a surrogate id that occurs once (pairwise distinct ids)
removes exactly one row. -/
theorem length_filter_id_ne (l : List PatientRow) (pid : Nat)
    (huniq : l.Pairwise (fun a b => a.id ≠ b.id))
    (hmem : ∃ r ∈ l, r.id = pid) :
    (l.filter (fun r => r.id != pid)).length + 1 = l.length := by
  induction l with
  | nil => simp at hmem
  | cons a t ih =>
    rcases List.pairwise_cons.1 huniq with ⟨ha, ht⟩
    rcases hmem with ⟨r, hr, hrid⟩
    rcases List.mem_cons.1 hr with h | h
    · subst h
      have htail : t.filter (fun x => x.id != pid) = t := by
        refine List.filter_eq_self.2 (fun x hx => ?_)
        have hne := ha x hx
        simp only [bne_iff_ne, ne_eq]
        intro hh
        exact hne (by rw [hrid, hh])
      rw [List.filter_cons, if_neg (by simp [hrid]), htail]
      simp
    · have hane : a.id ≠ pid := by
        have hne := ha r h
        rw [hrid] at hne
        exact hne
      rw [List.filter_cons, if_pos (by simp [hane])]
      simp only [List.length_cons]
      rw [ih ht ⟨r, h, hrid⟩]

/-! ## C1 — duplicate patient cnic -/

/-- C1: a Patient create whose cnic already occurs in the Patients table
fails with the DuplicateKey message "CNIC already exists!", leaves the store
entirely unchanged, and the table afterwards still holds exactly one row with
that cnic. -/
theorem add_patient_duplicate_cnic (name cnic phone : String) (db : DB)
    (hname : name ≠ "") (hcnic : cnic ≠ "") (hphone : phone ≠ "")
    (hdup : ∃ r ∈ db.patients, r.cnic = cnic)
    (huniq : db.patients.Pairwise (fun a b => a.cnic ≠ b.cnic)) :
    add_patient_form name cnic phone db = (db, UiMsg.error "CNIC already exists!") ∧
    ((add_patient_form name cnic phone db).1.patients.countP
      (fun r => r.cnic == cnic)) = 1 := by
  have hany : db.patients.any (fun r => r.cnic == cnic) = true := by
    rcases hdup with ⟨r, hr, he⟩
    exact List.any_eq_true.2 ⟨r, hr, by simp [he]⟩
  have h1 : add_patient_form name cnic phone db = (db, UiMsg.error "CNIC already exists!") := by
    unfold add_patient_form
    rw [if_pos ⟨hname, hcnic, hphone⟩, if_pos hany]
  refine ⟨h1, ?_⟩
  rw [h1]
  exact countP_cnic_eq_one db.patients cnic hdup huniq

/-- Witness for C1 at the concrete store `demoDb`. -/
theorem add_patient_duplicate_cnic_witness :
    add_patient_form "Eve" "11111-1111111-1" "0301" demoDb
      = (demoDb, UiMsg.error "CNIC already exists!") ∧
    ((add_patient_form "Eve" "11111-1111111-1" "0301" demoDb).1.patients.countP
      (fun r => r.cnic == "11111-1111111-1")) = 1 :=
  add_patient_duplicate_cnic "Eve" "11111-1111111-1" "0301" demoDb
    (by decide) (by decide) (by decide)
    ⟨{ id := 1, name := "Alice", cnic := "11111-1111111-1", phone := "0300" },
      by simp [demoDb], rfl⟩
    (by simp [demoDb])

/-! ## C3 — billing creation with unknown patient cnic -/

/-- C3: a Billing create whose patient cnic matches no Patient row fails with
the ReferenceNotFound message of each variant ("Patient not found!" in
`Appp.py`, "Patient not found in records!" in `app.py`) and inserts nothing:
the store is returned unchanged. -/
theorem add_bill_unknown_patient (patient_cnic : String) (amount : Int)
    (details status today : String) (db : DB) (adb : AppDB)
    (hpc : patient_cnic ≠ "")
    (hnone : db.patients.find? (fun r => r.cnic == patient_cnic) = none)
    (hnone2 : adb.patients.find? (fun r => r.cnic == patient_cnic) = none) :
    add_bill_form patient_cnic amount details status db
      = (db, UiMsg.error "Patient not found!") ∧
    app_add_bill_form today patient_cnic amount details status adb
      = (adb, UiMsg.error "Patient not found in records!") := by
  constructor
  · unfold add_bill_form
    rw [if_pos hpc, hnone]
  · unfold app_add_bill_form
    rw [if_neg hpc, hnone2]

/-- Witness for C3: an unknown cnic against the concrete stores. -/
theorem add_bill_unknown_patient_witness :
    add_bill_form "99999-9999999-9" 100 "X-ray" "Pending" demoDb
      = (demoDb, UiMsg.error "Patient not found!") ∧
    app_add_bill_form "2025-06-01" "99999-9999999-9" 100 "X-ray" "Pending" demoAppDb
      = (demoAppDb, UiMsg.error "Patient not found in records!") :=
  add_bill_unknown_patient "99999-9999999-9" 100 "X-ray" "Pending" "2025-06-01"
    demoDb demoAppDb (by decide) (by simp [demoDb]) (by simp [demoAppDb])

/-! ## C4 — appointment creation resolves both references -/

/-- C4: with both cnics supplied, the appointment insert happens exactly when
the patient cnic resolves to a Patient row and the doctor cnic resolves to a
Doctor row; when both resolve, the row appended carries the names read from
the Patients and Doctors tables at write time; when either lookup is empty
the store is unchanged and the form reports "Invalid CNIC!". -/
theorem add_appointment_reference_checks
    (patient_cnic doctor_cnic date time status : String) (db : DB)
    (hpc : patient_cnic ≠ "") (hdc : doctor_cnic ≠ "") :
    (∀ p d, db.patients.find? (fun r => r.cnic == patient_cnic) = some p →
       db.doctors.find? (fun r => r.cnic == doctor_cnic) = some d →
       add_appointment_form patient_cnic doctor_cnic date time status db
         = ({ db with
               appointments := db.appointments ++
                 [{ id := db.nextApptId, patient := p.name, patient_cnic := patient_cnic,
                    doctor := d.name, doctor_cnic := doctor_cnic,
                    date := date, time := time, status := status }],
               nextApptId := db.nextApptId + 1 },
            UiMsg.success "Appointment scheduled!")) ∧
    ((db.patients.find? (fun r => r.cnic == patient_cnic) = none ∨
      db.doctors.find? (fun r => r.cnic == doctor_cnic) = none) →
      add_appointment_form patient_cnic doctor_cnic date time status db
        = (db, UiMsg.error "Invalid CNIC!")) := by
  constructor
  · intro p d hp hd
    unfold add_appointment_form
    rw [if_pos ⟨hpc, hdc⟩, hp, hd]
  · intro h
    unfold add_appointment_form
    rw [if_pos ⟨hpc, hdc⟩]
    rcases h with h | h
    · rw [h]
    · rw [h]
      rcases hpat : db.patients.find? (fun r => r.cnic == patient_cnic) with _ | p <;>
        rw [hpat]

/-- Witness for C4: both cnics of `demoDb` resolve and the inserted
appointment snapshots the names "Alice" and "Dr Bob". -/
theorem add_appointment_reference_checks_witness :
    add_appointment_form "11111-1111111-1" "22222-2222222-2" "2025-03-01" "10:00:00"
      "Scheduled" demoDb
      = ({ demoDb with
            appointments := [{ id := 1, patient := "Alice",
                               patient_cnic := "11111-1111111-1", doctor := "Dr Bob",
                               doctor_cnic := "22222-2222222-2", date := "2025-03-01",
                               time := "10:00:00", status := "Scheduled" }],
            nextApptId := 2 },
         UiMsg.success "Appointment scheduled!") :=
  (add_appointment_reference_checks "11111-1111111-1" "22222-2222222-2" "2025-03-01"
      "10:00:00" "Scheduled" demoDb (by decide) (by decide)).1
    { id := 1, name := "Alice", cnic := "11111-1111111-1", phone := "0300" }
    { id := 1, name := "Dr Bob", cnic := "22222-2222222-2", department := "Cardiology" }
    rfl rfl

/-! ## C10 — record update re-resolves and refreshes the denormalized name -/

/-- C10: updating a MedicalRecord in `Appp.py` re-resolves the (possibly
edited) patient cnic against the current Patients table; when it resolves to
patient `p`, the targeted row is rewritten with its denormalized patient name
set to `p.name`, the patient's current name; when it does not resolve, the
update is silently dropped: the store is unchanged and no message at all is
shown. -/
theorem update_record_refreshes_name (rid : Nat)
    (patient_cnic doctor diagnosis treatment prescription date : String) (db : DB) :
    (∀ p, db.patients.find? (fun r => r.cnic == patient_cnic) = some p →
       update_record_form rid patient_cnic doctor diagnosis treatment prescription date db
         = ({ db with
               records := db.records.map (fun r =>
                 if r.id == rid then
                   { id := r.id, patient := p.name, patient_cnic := patient_cnic,
                     doctor := doctor, diagnosis := diagnosis, treatment := treatment,
                     prescription := prescription, date := date }
                 else r) },
            some (UiMsg.success "Updated!"))) ∧
    (db.patients.find? (fun r => r.cnic == patient_cnic) = none →
      update_record_form rid patient_cnic doctor diagnosis treatment prescription date db
        = (db, none)) := by
  constructor
  · intro p hp
    unfold update_record_form
    rw [hp]
  · intro h
    unfold update_record_form
    rw [h]

/-- Witness for C10: the stale name "Old Name" in `demoStaleDb` is replaced
by the patient's current name "Alice" on update. -/
theorem update_record_refreshes_name_witness :
    update_record_form 1 "11111-1111111-1" "Dr Bob" "Flu" "Rest" "Tea" "2025-01-02"
        demoStaleDb
      = ({ demoStaleDb with
            records := [{ id := 1, patient := "Alice", patient_cnic := "11111-1111111-1",
                          doctor := "Dr Bob", diagnosis := "Flu", treatment := "Rest",
                          prescription := "Tea", date := "2025-01-02" }] },
         some (UiMsg.success "Updated!")) := by
  have h := (update_record_refreshes_name 1 "11111-1111111-1" "Dr Bob" "Flu" "Rest" "Tea"
      "2025-01-02" demoStaleDb).1
    { id := 1, name := "Alice", cnic := "11111-1111111-1", phone := "0300" } rfl
  rw [h]
  rfl

/-! ## C5 — renaming a patient does not rewrite historical records -/

/-- C5: create a MedicalRecord for the patient `p` found under cnic `n`, then
rename that patient via the `Appp.py` patient update (same cnic, new name).
The record created earlier still carries the denormalized name `p.name`
captured at write time — the rename touched only the Patients row.  The
other dependent tables are also untouched by the update. -/
theorem patient_rename_keeps_record_name
    (db : DB) (n doctor diagnosis treatment prescription date newName newPhone : String)
    (p : PatientRow)
    (hfind : db.patients.find? (fun r => r.cnic == n) = some p)
    (huniq : db.patients.Pairwise (fun a b => a.cnic ≠ b.cnic))
    (hn : n ≠ "") (hdoc : doctor ≠ "") (hdiag : diagnosis ≠ "") :
    ((update_patient_form p.id newName n newPhone
        (add_record_form n doctor diagnosis treatment prescription date db).1).1).records
      = db.records ++
        [{ id := db.nextRecordId, patient := p.name, patient_cnic := n,
           doctor := doctor, diagnosis := diagnosis, treatment := treatment,
           prescription := prescription, date := date }] ∧
    (update_patient_form p.id newName n newPhone
        (add_record_form n doctor diagnosis treatment prescription date db).1).2
      = UiMsg.success "Patient updated!" := by
  have hdb1 : (add_record_form n doctor diagnosis treatment prescription date db).1
      = { db with
            records := db.records ++
              [{ id := db.nextRecordId, patient := p.name, patient_cnic := n,
                 doctor := doctor, diagnosis := diagnosis, treatment := treatment,
                 prescription := prescription, date := date }],
            nextRecordId := db.nextRecordId + 1 } := by
    unfold add_record_form
    rw [if_pos ⟨hn, hdoc, hdiag⟩, hfind]
  have hcollide : db.patients.any (fun r => r.id != p.id && r.cnic == n) = false := by
    rw [Bool.eq_false_iff]
    intro hany
    rcases List.any_eq_true.1 hany with ⟨r, hrmem, hrp⟩
    simp only [Bool.and_eq_true, bne_iff_ne, ne_eq, beq_iff_eq] at hrp
    have hre : r = p := mem_cnic_eq_find db.patients n p r hfind huniq hrmem hrp.2
    subst hre
    exact hrp.1 rfl
  have hpat1 : (add_record_form n doctor diagnosis treatment prescription date db).1.patients
      = db.patients := by rw [hdb1]
  have hnc :
      ¬ (((add_record_form n doctor diagnosis treatment prescription
              date db).1.patients.any (fun r => r.id == p.id)) &&
         ((add_record_form n doctor diagnosis treatment prescription
              date db).1.patients.any (fun r => r.id != p.id && r.cnic == n))) = true := by
    rw [hpat1, hcollide, Bool.and_false]
    exact Bool.false_ne_true
  constructor
  · unfold update_patient_form
    rw [if_neg hnc]
    show (add_record_form n doctor diagnosis treatment prescription date db).1.records
      = db.records ++
        [{ id := db.nextRecordId, patient := p.name, patient_cnic := n,
           doctor := doctor, diagnosis := diagnosis, treatment := treatment,
           prescription := prescription, date := date }]
    rw [hdb1]
  · unfold update_patient_form
    rw [if_neg hnc]

/-- Witness for C5 at `demoDb`: after adding a record for Alice and renaming
her to "Alicia", the record still says "Alice". -/
theorem patient_rename_keeps_record_name_witness :
    ((update_patient_form 1 "Alicia" "11111-1111111-1" "0300"
        (add_record_form "11111-1111111-1" "Dr Bob" "Flu" "Rest" "Tea" "2025-01-01"
          demoDb).1).1).records
      = [{ id := 1, patient := "Alice", patient_cnic := "11111-1111111-1",
           doctor := "Dr Bob", diagnosis := "Flu", treatment := "Rest",
           prescription := "Tea", date := "2025-01-01" }] := by
  have h := patient_rename_keeps_record_name demoDb "11111-1111111-1" "Dr Bob" "Flu"
    "Rest" "Tea" "2025-01-01" "Alicia" "0300"
    { id := 1, name := "Alice", cnic := "11111-1111111-1", phone := "0300" }
    rfl (by simp [demoDb]) (by decide) (by decide) (by decide)
  rw [h.1]
  rfl

/-! ## C7 — delete by surrogate id (management.py) -/

/-- C7 counterexample: deleting the nonexistent id 99 from `demoDb` produces
no message at all — the source renders no update/delete widgets when the id
query returns no row, so no NotFound (nor any other) message is reported,
refuting the claim's "reports NotFound (a clear message)".  The store is
unchanged. -/
theorem del_patient_missing_id_silent :
    del_patient_btn 99 demoDb = (demoDb, none) := by
  rfl

/-- C7 amended: deleting a nonexistent surrogate id is a silent no-op — the
store is unchanged and no message of any kind is shown; deleting an existing
id (ids pairwise distinct, as the PRIMARY KEY guarantees) removes exactly
that one row from Patients, shows "❌ Patient deleted", and removes no
dependent records: Appointments, MedicalRecords and Billings are untouched
(no cascade). -/
theorem del_patient_btn_spec (pid : Nat) (db : DB) :
    ((∀ r ∈ db.patients, r.id ≠ pid) → del_patient_btn pid db = (db, none)) ∧
    ((∃ r ∈ db.patients, r.id = pid) →
      (del_patient_btn pid db).2 = some (UiMsg.success "❌ Patient deleted") ∧
      (del_patient_btn pid db).1.patients = db.patients.filter (fun r => r.id != pid) ∧
      (db.patients.Pairwise (fun a b => a.id ≠ b.id) →
        (del_patient_btn pid db).1.patients.length + 1 = db.patients.length) ∧
      (del_patient_btn pid db).1.records = db.records ∧
      (del_patient_btn pid db).1.appointments = db.appointments ∧
      (del_patient_btn pid db).1.bills = db.bills ∧
      (del_patient_btn pid db).1.doctors = db.doctors) := by
  constructor
  · intro h
    have hany : db.patients.any (fun r => r.id == pid) = false := by
      rw [Bool.eq_false_iff]
      intro hh
      rcases List.any_eq_true.1 hh with ⟨r, hr, hrp⟩
      exact h r hr (by simpa using hrp)
    unfold del_patient_btn
    rw [if_neg (by rw [hany]; exact Bool.false_ne_true)]
  · intro hmem
    have hany : db.patients.any (fun r => r.id == pid) = true := by
      rcases hmem with ⟨r, hr, he⟩
      exact List.any_eq_true.2 ⟨r, hr, by simp [he]⟩
    have hres : del_patient_btn pid db
        = ({ db with patients := db.patients.filter (fun r => r.id != pid) },
           some (UiMsg.success "❌ Patient deleted")) := by
      unfold del_patient_btn
      rw [if_pos hany]
    rw [hres]
    refine ⟨rfl, rfl, ?_, rfl, rfl, rfl, rfl⟩
    intro huniq
    exact length_filter_id_ne db.patients pid huniq hmem

/-- Witness for C7 (amended) at `demoDb` with its existing patient id 1. -/
theorem del_patient_btn_spec_witness :
    (del_patient_btn 1 demoDb).2 = some (UiMsg.success "❌ Patient deleted") ∧
    (del_patient_btn 1 demoDb).1.patients.length + 1 = demoDb.patients.length := by
  have h := (del_patient_btn_spec 1 demoDb).2
    ⟨{ id := 1, name := "Alice", cnic := "11111-1111111-1", phone := "0300" },
      by simp [demoDb], rfl⟩
  exact ⟨h.1, h.2.2.1 (by simp [demoDb])⟩

/-! ## C9 — hospital.py add-patient always fails -/

/-- C9: in `hospital.py`, the add-patient INSERT names the columns age,
gender and address, which the Patients table created by that file's `init_db`
does not have, so the statement always fails (`OperationalError`), the bare
`except:` reports the DuplicateKey message "CNIC already exists!", and the
store is unchanged — for every submission with non-empty name, cnic and
phone, even when the cnic is fresh. -/
theorem hospital_add_patient_always_fails (name cnic phone : String) (age : Nat)
    (gender address : String) (db : DB)
    (hname : name ≠ "") (hcnic : cnic ≠ "") (hphone : phone ≠ "") :
    hospital_add_patient_form name cnic phone age gender address db
      = (db, UiMsg.error "CNIC already exists!") := by
  have hcols : hospitalInsertColumns.all
      (fun c => hospitalPatientsColumns.contains c) = false := by decide
  have hins : hospitalInsertPatient name cnic phone age gender address db
      = Except.error SqliteError.operationalError := by
    unfold hospitalInsertPatient
    rw [if_neg (by rw [hcols]; exact Bool.false_ne_true)]
  unfold hospital_add_patient_form
  rw [if_pos ⟨hname, hcnic, hphone⟩, hins]

/-- Witness for C9: a fresh cnic against `demoDb` still yields the duplicate
message and no insert. -/
theorem hospital_add_patient_always_fails_witness :
    hospital_add_patient_form "Carol" "33333-3333333-3" "0302" 30 "Female" "Street 1"
      demoDb = (demoDb, UiMsg.error "CNIC already exists!") :=
  hospital_add_patient_always_fails "Carol" "33333-3333333-3" "0302" 30 "Female"
    "Street 1" demoDb (by decide) (by decide) (by decide)

/-! ## C2 — the cnic validator -/

/-- `matchChar` succeeds exactly on inputs starting with the expected
character, returning the tail. -/
theorem matchChar_eq_some (ch : Char) (cs rest : List Char) :
    matchChar ch cs = some rest ↔ cs = ch :: rest := by
  cases cs with
  | nil => simp [matchChar]
  | cons c cs =>
    by_cases h : c = ch
    · subst h
      simp [matchChar]
    · simp [matchChar, h]

/-- `matchDigits n` succeeds exactly when the input starts with `n` digit
characters, returning the rest. -/
theorem matchDigits_eq_some (n : Nat) (cs rest : List Char) :
    matchDigits n cs = some rest ↔
      ∃ ds, cs = ds ++ rest ∧ ds.length = n ∧ ∀ x ∈ ds, x.isDigit = true := by
  induction n generalizing cs with
  | zero =>
    constructor
    · intro h
      refine ⟨[], ?_, rfl, by simp⟩
      have hcr : cs = rest := by simpa [matchDigits] using h
      simpa using hcr
    · rintro ⟨ds, h1, h2, _⟩
      have hds : ds = [] := List.length_eq_zero.1 h2
      subst hds
      simp [matchDigits, h1]
  | succ n ih =>
    cases cs with
    | nil =>
      constructor
      · intro h
        simp [matchDigits] at h
      · rintro ⟨ds, h1, h2, _⟩
        cases ds with
        | nil => simp at h2
        | cons d ds => simp at h1
    | cons c cs =>
      constructor
      · intro h
        by_cases hd : c.isDigit
        · rw [show matchDigits (n + 1) (c :: cs) = matchDigits n cs from by
            simp [matchDigits, hd]] at h
          rcases (ih cs).1 h with ⟨ds, h1, h2, h3⟩
          refine ⟨c :: ds, by simp [h1], by simp [h2], ?_⟩
          intro x hx
          rcases List.mem_cons.1 hx with hx | hx
          · subst hx; exact hd
          · exact h3 x hx
        · simp [matchDigits, hd] at h
      · rintro ⟨ds, h1, h2, h3⟩
        cases ds with
        | nil => simp at h2
        | cons d ds =>
          simp only [List.cons_append, List.cons.injEq] at h1
          rcases h1 with ⟨hcd, hcs⟩
          subst hcd
          have hd : c.isDigit = true := h3 c (by simp)
          rw [show matchDigits (n + 1) (c :: cs) = matchDigits n cs from by
            simp [matchDigits, hd]]
          exact (ih cs).2 ⟨ds, hcs, by simpa using h2, fun x hx =>
            h3 x (List.mem_cons_of_mem _ hx)⟩

/-- Python's `$` anchor succeeds exactly at end of input or before one final
newline. -/
theorem matchDollar_eq_true (cs : List Char) :
    matchDollar cs = true ↔ cs = [] ∨ cs = ['\n'] := by
  unfold matchDollar
  simp [List.isEmpty_iff]

/-- The source regex accepts exactly the 5-7-1 digit shape, either at the
very end of the string or followed by one final newline (Python's `$`). -/
theorem cnicRegexMatch_iff (cs : List Char) :
    cnicRegexMatch cs = true ↔
      (specCnic cs ∨ ∃ cs0, cs = cs0 ++ ['\n'] ∧ specCnic cs0) := by
  constructor
  · intro h
    unfold cnicRegexMatch at h
    cases h5 : matchDigits 5 cs with
    | none => rw [h5] at h; simp at h
    | some cs1 =>
      rw [h5, Option.some_bind] at h
      cases h1 : matchChar '-' cs1 with
      | none => rw [h1] at h; simp at h
      | some cs2 =>
        rw [h1, Option.some_bind] at h
        cases h7 : matchDigits 7 cs2 with
        | none => rw [h7] at h; simp at h
        | some cs3 =>
          rw [h7, Option.some_bind] at h
          cases h2 : matchChar '-' cs3 with
          | none => rw [h2] at h; simp at h
          | some cs4 =>
            rw [h2, Option.some_bind] at h
            cases h9 : matchDigits 1 cs4 with
            | none => rw [h9] at h; simp at h
            | some cs5 =>
              rw [h9] at h
              have hdollar : matchDollar cs5 = true := h
              rcases (matchDigits_eq_some 5 cs cs1).1 h5 with ⟨a, hcs, ha5, had⟩
              have hcs1 : cs1 = '-' :: cs2 := (matchChar_eq_some '-' cs1 cs2).1 h1
              rcases (matchDigits_eq_some 7 cs2 cs3).1 h7 with ⟨b, hcs2, hb7, hbd⟩
              have hcs3 : cs3 = '-' :: cs4 := (matchChar_eq_some '-' cs3 cs4).1 h2
              rcases (matchDigits_eq_some 1 cs4 cs5).1 h9 with ⟨dd, hcs4, hd1, hdd⟩
              obtain ⟨c, hc⟩ : ∃ c, dd = [c] := by
                cases dd with
                | nil => simp at hd1
                | cons x xs =>
                  cases xs with
                  | nil => exact ⟨x, rfl⟩
                  | cons y ys => simp at hd1
              subst hc
              rcases (matchDollar_eq_true cs5).1 hdollar with h0 | h0
              · left
                refine ⟨a, b, c, ?_, ha5, hb7, had, hbd, hdd c (by simp)⟩
                subst h0
                rw [hcs, hcs1, hcs2, hcs3, hcs4]
                simp
              · right
                refine ⟨a ++ '-' :: (b ++ ['-', c]), ?_,
                  a, b, c, rfl, ha5, hb7, had, hbd, hdd c (by simp)⟩
                subst h0
                rw [hcs, hcs1, hcs2, hcs3, hcs4]
                simp
  · intro h
    have key : ∀ (a b : List Char) (c : Char) (tail : List Char),
        a.length = 5 → b.length = 7 → (∀ x ∈ a, x.isDigit = true) →
        (∀ x ∈ b, x.isDigit = true) → c.isDigit = true → matchDollar tail = true →
        cnicRegexMatch (a ++ '-' :: (b ++ '-' :: c :: tail)) = true := by
      intro a b c tail ha hb hda hdb hdc htail
      unfold cnicRegexMatch
      rw [(matchDigits_eq_some 5 _ ('-' :: (b ++ '-' :: c :: tail))).2 ⟨a, rfl, ha, hda⟩,
        Option.some_bind,
        (matchChar_eq_some '-' _ (b ++ '-' :: c :: tail)).2 rfl, Option.some_bind,
        (matchDigits_eq_some 7 _ ('-' :: c :: tail)).2 ⟨b, rfl, hb, hdb⟩,
        Option.some_bind,
        (matchChar_eq_some '-' _ (c :: tail)).2 rfl, Option.some_bind,
        (matchDigits_eq_some 1 (c :: tail) tail).2 ⟨[c], by simp, rfl, by simpa using hdc⟩]
      exact htail
    rcases h with ⟨a, b, c, hcs, ha, hb, hda, hdb, hdc⟩ |
      ⟨cs0, hcs, a, b, c, hcs0, ha, hb, hda, hdb, hdc⟩
    · rw [hcs]
      rw [show a ++ '-' :: (b ++ ['-', c]) = a ++ '-' :: (b ++ '-' :: c :: []) from by simp]
      exact key a b c [] ha hb hda hdb hdc (by simp [matchDollar])
    · rw [hcs, hcs0]
      rw [show (a ++ '-' :: (b ++ ['-', c])) ++ ['\n']
          = a ++ '-' :: (b ++ '-' :: c :: ['\n']) from by simp]
      exact key a b c ['\n'] ha hb hda hdb hdc (by simp [matchDollar])

/-- C2 counterexample: the validator accepts `"12345-1234567-1\n"`, a string
with a trailing newline after the final digit, because Python's `$` also
matches just before a string-final newline — refuting the claim that only
strings consisting of exactly the 5-7-1 digit pattern, with nothing before
or after, are accepted. -/
theorem valid_cnic_accepts_trailing_newline :
    valid_cnic "12345-1234567-1\n" = true ∧ ¬ specCnic ("12345-1234567-1\n").data := by
  constructor
  · rfl
  · rintro ⟨a, b, c, heq, ha, hb, _⟩
    have hlen : ("12345-1234567-1\n").data.length = 16 := rfl
    rw [heq] at hlen
    simp [ha, hb] at hlen

/-- C2 amended: `valid_cnic` returns true exactly on the strings consisting
of 5 digits, a hyphen, 7 digits, a hyphen and 1 digit — or that same shape
followed by one final newline, which Python's `$` anchor also accepts.  All
other strings (wrong digit counts, wrong separator, other non-digit
characters) are rejected. -/
theorem valid_cnic_iff_spec (s : String) :
    valid_cnic s = true ↔
      (specCnic s.data ∨ ∃ cs, s.data = cs ++ ['\n'] ∧ specCnic cs) :=
  cnicRegexMatch_iff s.data

/-! ## C6 — monthly aggregation -/

theorem ymLt_trans {a b c : Nat × Nat} (h1 : ymLt a b) (h2 : ymLt b c) : ymLt a c := by
  unfold ymLt at h1 h2 ⊢
  rcases h1 with h1 | ⟨h1e, h1m⟩ <;> rcases h2 with h2 | ⟨h2e, h2m⟩
  · exact Or.inl (lt_trans h1 h2)
  · exact Or.inl (h2e ▸ h1)
  · exact Or.inl (h1e ▸ h2)
  · exact Or.inr ⟨h1e.trans h2e, lt_trans h1m h2m⟩

theorem ymLt_of_ne_of_not_lt {a b : Nat × Nat} (hne : a ≠ b) (hnlt : ¬ ymLt a b) :
    ymLt b a := by
  unfold ymLt at hnlt ⊢
  rcases Nat.lt_trichotomy a.1 b.1 with h | h | h
  · exact absurd (Or.inl h) hnlt
  · rcases Nat.lt_trichotomy a.2 b.2 with h2 | h2 | h2
    · exact absurd (Or.inr ⟨h, h2⟩) hnlt
    · rcases a with ⟨a1, a2⟩
      rcases b with ⟨b1, b2⟩
      simp only at h h2
      exact absurd (by rw [h, h2]) hne
    · exact Or.inr ⟨h.symm, h2⟩
  · exact Or.inl h

theorem ymLt_irrefl (a : Nat × Nat) : ¬ ymLt a a := by
  unfold ymLt
  simp

theorem mem_insertKey (x a : Nat × Nat) (l : List (Nat × Nat)) :
    a ∈ insertKey x l ↔ a = x ∨ a ∈ l := by
  induction l with
  | nil => simp [insertKey]
  | cons y ys ih =>
    unfold insertKey
    by_cases hxy : x = y
    · rw [if_pos hxy]
      subst hxy
      simp [List.mem_cons]
    · rw [if_neg hxy]
      by_cases hlt : ymLt x y
      · rw [if_pos hlt]
        simp [List.mem_cons]
      · rw [if_neg hlt]
        simp only [List.mem_cons, ih]
        tauto

theorem pairwise_insertKey (x : Nat × Nat) (l : List (Nat × Nat))
    (hl : l.Pairwise ymLt) : (insertKey x l).Pairwise ymLt := by
  induction l with
  | nil => simp [insertKey]
  | cons y ys ih =>
    rcases List.pairwise_cons.1 hl with ⟨hy, hys⟩
    unfold insertKey
    by_cases hxy : x = y
    · rw [if_pos hxy]
      exact hl
    · rw [if_neg hxy]
      by_cases hlt : ymLt x y
      · rw [if_pos hlt]
        refine List.pairwise_cons.2 ⟨?_, hl⟩
        intro b hb
        rcases List.mem_cons.1 hb with hb | hb
        · subst hb; exact hlt
        · exact ymLt_trans hlt (hy b hb)
      · rw [if_neg hlt]
        refine List.pairwise_cons.2 ⟨?_, ih hys⟩
        intro b hb
        rcases (mem_insertKey x b ys).1 hb with hb | hb
        · subst hb; exact ymLt_of_ne_of_not_lt hxy hlt
        · exact hy b hb

theorem mem_sortedKeys (a : Nat × Nat) (l : List (Nat × Nat)) :
    a ∈ sortedKeys l ↔ a ∈ l := by
  induction l with
  | nil => simp [sortedKeys]
  | cons y ys ih =>
    show a ∈ insertKey y (sortedKeys ys) ↔ _
    rw [mem_insertKey]
    simp only [List.mem_cons, ih]

theorem pairwise_sortedKeys (l : List (Nat × Nat)) : (sortedKeys l).Pairwise ymLt := by
  induction l with
  | nil => simp [sortedKeys]
  | cons y ys ih => exact pairwise_insertKey y (sortedKeys ys) ih

theorem nodup_sortedKeys (l : List (Nat × Nat)) : (sortedKeys l).Nodup :=
  (pairwise_sortedKeys l).imp
    (fun hab => by
      intro he
      subst he
      exact ymLt_irrefl _ hab)

/-- A pair belongs to the grouped series exactly when its key occurs in the
input and its value is that key's multiplicity. -/
theorem groupMonths_mem (l : List (Nat × Nat)) (ym : Nat × Nat) (n : Nat) :
    (ym, n) ∈ groupMonths l ↔ ym ∈ l ∧ n = l.count ym := by
  unfold groupMonths
  rw [List.mem_map]
  constructor
  · rintro ⟨k, hk, he⟩
    have h1 : k = ym := congrArg Prod.fst he
    have h2 : l.count k = n := congrArg Prod.snd he
    subst h1
    exact ⟨(mem_sortedKeys k l).1 hk, h2.symm⟩
  · rintro ⟨hmem, hn⟩
    exact ⟨ym, (mem_sortedKeys ym l).2 hmem, by rw [hn]⟩

/-- C6 counterexample: a single unparseable date aborts the monthly
aggregation with an error — pandas `to_datetime` is called with its default
`errors="raise"` — instead of excluding the record from the groups as the
claim states. -/
theorem monthlyTrend_unparseable_raises :
    monthlyTrend ["2025-01-15", "garbage"] = Except.error () := by
  rfl

/-- C6 amended: when every record's date parses, the aggregation returns one
(month, count) pair per distinct calendar month of the input, each count
being that month's multiplicity; but a record whose date field is
unparseable is not excluded — it makes the whole aggregation raise
(`Except.error`). -/
theorem monthlyTrend_spec (dates : List String) :
    ((∀ s ∈ dates, (parseYM s).isSome = true) →
      ∃ l, monthlyTrend dates = Except.ok l ∧ (l.map Prod.fst).Nodup ∧
        ∀ ym n, ((ym, n) ∈ l ↔ ym ∈ dates.filterMap parseYM ∧
          n = (dates.filterMap parseYM).count ym)) ∧
    ((∃ s ∈ dates, parseYM s = none) → monthlyTrend dates = Except.error ()) := by
  constructor
  · intro h
    have hall : dates.all (fun s => (parseYM s).isSome) = true := List.all_eq_true.2 h
    refine ⟨groupMonths (dates.filterMap parseYM), ?_, ?_, ?_⟩
    · unfold monthlyTrend
      rw [if_pos hall]
    · unfold groupMonths
      rw [List.map_map]
      rw [show (Prod.fst ∘ fun k => (k, (dates.filterMap parseYM).count k)) = id from rfl]
      rw [List.map_id]
      exact nodup_sortedKeys _
    · intro ym n
      exact groupMonths_mem _ ym n
  · rintro ⟨s, hs, hnone⟩
    have hall : dates.all (fun s => (parseYM s).isSome) = false := by
      rw [Bool.eq_false_iff]
      intro hh
      have hsome := List.all_eq_true.1 hh s hs
      rw [hnone] at hsome
      simp at hsome
    unfold monthlyTrend
    rw [if_neg (by rw [hall]; exact Bool.false_ne_true)]

/-- Witness for C6 (amended): the spec's example of 5 records across 2
distinct months yields exactly the groups (2025-01, 3) and (2025-02, 2). -/
theorem monthlyTrend_spec_witness :
    ((2025, 1), 3) ∈ groupMonths ((["2025-01-01", "2025-01-15", "2025-01-20",
        "2025-02-01", "2025-02-10"]).filterMap parseYM) ∧
    ((2025, 2), 2) ∈ groupMonths ((["2025-01-01", "2025-01-15", "2025-01-20",
        "2025-02-01", "2025-02-10"]).filterMap parseYM) := by
  have h := (monthlyTrend_spec ["2025-01-01", "2025-01-15", "2025-01-20",
      "2025-02-01", "2025-02-10"]).1 (by decide)
  rcases h with ⟨l, hl, hnd, hiff⟩
  have h2 : monthlyTrend ["2025-01-01", "2025-01-15", "2025-01-20",
      "2025-02-01", "2025-02-10"]
      = Except.ok (groupMonths ((["2025-01-01", "2025-01-15", "2025-01-20",
          "2025-02-01", "2025-02-10"]).filterMap parseYM)) := by
    unfold monthlyTrend
    rw [if_pos (by decide)]
  rw [h2] at hl
  have hleq : groupMonths ((["2025-01-01", "2025-01-15", "2025-01-20",
      "2025-02-01", "2025-02-10"]).filterMap parseYM) = l := Except.ok.inj hl
  rw [hleq]
  exact ⟨(hiff (2025, 1) 3).2 ⟨by decide, by decide⟩,
    (hiff (2025, 2) 2).2 ⟨by decide, by decide⟩⟩

/-! ## C8 — tabular PDF reports -/

/-- C8 counterexample: `export_pdf` with zero data rows emits a title and a
header-only table — the rendered document contains no "no data" notice of
any kind (in particular not the one notice string used elsewhere in the
repository), refuting the claim that the zero-row case yields a "no data"
indication rather than an empty table. -/
theorem export_pdf_zero_rows_no_notice :
    export_pdf "Report" ["id", "name"] []
      = [PdfElem.para "Report", PdfElem.table [["id", "name"]]] ∧
    (export_pdf "Report" ["id", "name"] []).all
      (fun e => e != PdfElem.para "No medical records found for this patient.") = true := by
  exact ⟨rfl, rfl⟩

/-- C8 amended: `export_pdf` never raises and always produces a non-empty
document — exactly a title paragraph plus one table holding the header row
and the `n` data rows — but it emits no "no data" notice for zero rows; the
"no data" indication exists only in `App.py`'s patient-report generator,
which emits "No medical records found for this patient." when the record
set is empty. -/
theorem tabular_report_structure (title : String) (headers : List String)
    (rows : List (List String)) (patient_name patient_cnic now : String) :
    (export_pdf title headers rows).length = 2 ∧
    PdfElem.para title ∈ export_pdf title headers rows ∧
    PdfElem.table (headers :: rows) ∈ export_pdf title headers rows ∧
    (headers :: rows).length = rows.length + 1 ∧
    PdfElem.para "No medical records found for this patient."
      ∈ generate_patient_report_pdf patient_name patient_cnic now [] := by
  refine ⟨rfl, by simp [export_pdf], by simp [export_pdf], by simp, ?_⟩
  simp [generate_patient_report_pdf]

/-- Witness for C2 (amended validator characterization) at a well-formed
cnic. -/
theorem valid_cnic_iff_spec_witness : valid_cnic "12345-1234567-1" = true := by
  refine (valid_cnic_iff_spec "12345-1234567-1").2 (Or.inl
    ⟨['1', '2', '3', '4', '5'], ['1', '2', '3', '4', '5', '6', '7'], '1',
      ?_, rfl, rfl, ?_, ?_, rfl⟩)
  · decide
  · decide
  · decide

end HMS
